import Mathlib

/-!  Verification of the `material_you_palette` color pipeline.

The repository's `f64` arithmetic is modelled as exact real arithmetic
(`ℝ`, with `powf` as `Real.rpow`, `round` as round-half-away-from-zero
and `%` as truncated remainder, matching Rust's semantics on reals).
8-bit channels (`u8`) are `Fin 256`.  Definitions follow
`src/utils/color.rs`, `src/utils/math.rs`, `src/hct/mod.rs` and
`src/scheme/mod.rs`; the modules `hct/cam16.rs`, `hct/hct_solver.rs`
and `palettes/` are absent from the source tree, so where a property
depends on them the missing part is modelled from the specification
and clearly marked, parameterized over the unspecified computation.  -/

namespace MaterialColor

/-- An 8-bit color channel (`u8`). -/
abbrev Channel := Fin 256

/-- An ARGB color, alpha-first, as the repository's `[u8; 4]`. -/
structure ARGB where
  alpha : Channel
  red : Channel
  green : Channel
  blue : Channel
deriving DecidableEq

/-- An RGB triple, as the repository's `[u8; 3]`. -/
structure RGB where
  r : Channel
  g : Channel
  b : Channel
deriving DecidableEq

/-- A `[f64; 3]` row vector. -/
structure Vec3 where
  x : ℝ
  y : ℝ
  z : ℝ

/-- A `[[f64; 3]; 3]` matrix. -/
structure Mat3 where
  r0 : Vec3
  r1 : Vec3
  r2 : Vec3

/-- `SRGB_TO_XYZ` from `utils/color.rs`. -/
def SRGB_TO_XYZ : Mat3 :=
  ⟨⟨0.41233895, 0.35762064, 0.18051042⟩,
   ⟨0.2126, 0.7152, 0.0722⟩,
   ⟨0.01932141, 0.11916382, 0.95034478⟩⟩

/-- `XYZ_TO_SRGB` from `utils/color.rs`. -/
def XYZ_TO_SRGB : Mat3 :=
  ⟨⟨3.2413774792388685, -1.5376652402851851, -0.49885366846268053⟩,
   ⟨-0.9691452513005321, 1.8758853451067872, 0.04156585616912061⟩,
   ⟨0.05562093689691305, -0.20395524564742123, 1.0571799111220335⟩⟩

/-- `WHITE_POINT_D65` from `utils/color.rs`. -/
def WHITE_POINT_D65 : Vec3 := ⟨95.047, 100.0, 108.883⟩

/-- `matrix_multiply` from `utils/math.rs`: row times 3×3 matrix. -/
def matrix_multiply (row : Vec3) (matrix : Mat3) : Vec3 :=
  ⟨row.x * matrix.r0.x + row.y * matrix.r0.y + row.z * matrix.r0.z,
   row.x * matrix.r1.x + row.y * matrix.r1.y + row.z * matrix.r1.z,
   row.x * matrix.r2.x + row.y * matrix.r2.y + row.z * matrix.r2.z⟩

/-- Rust `f64::trunc` on reals: rounding toward zero. -/
noncomputable def rustTrunc (x : ℝ) : ℤ :=
  if 0 ≤ x then ⌊x⌋ else ⌈x⌉

/-- Rust `%` on `f64` (truncated remainder) on reals. -/
noncomputable def rustFmod (a b : ℝ) : ℝ :=
  a - b * (rustTrunc (a / b) : ℝ)

/-- Rust `f64::round` on reals: rounding half away from zero. -/
noncomputable def rustRound (x : ℝ) : ℤ :=
  if 0 ≤ x then ⌊x + 1 / 2⌋ else -⌊-x + 1 / 2⌋

/-- `sanitize_degrees_double` from `utils/math.rs`. -/
noncomputable def sanitize_degrees_double (degrees : ℝ) : ℝ :=
  let d := rustFmod degrees 360.0
  if d < 0 then d + 360.0 else d

/-- `argb_from_rgb` from `utils/color.rs`: prepends an opaque alpha. -/
def argb_from_rgb (rgb : RGB) : ARGB :=
  ⟨255, rgb.r, rgb.g, rgb.b⟩

/-- `alpha_from_argb` from `utils/color.rs`. -/
def alpha_from_argb (argb : ARGB) : Channel := argb.alpha

/-- `red_from_argb` from `utils/color.rs`. -/
def red_from_argb (argb : ARGB) : Channel := argb.red

/-- `green_from_argb` from `utils/color.rs`. -/
def green_from_argb (argb : ARGB) : Channel := argb.green

/-- `blue_from_argb` from `utils/color.rs`. -/
def blue_from_argb (argb : ARGB) : Channel := argb.blue

/-- `linearized` from `utils/color.rs`: sRGB transfer function,
channel to linear-light value. -/
noncomputable def linearized (rgb_comp : Channel) : ℝ :=
  let normalized : ℝ := (rgb_comp.val : ℝ) / 255.0
  if normalized ≤ 0.040449936 then
    normalized / 12.92 * 100.0
  else
    ((normalized + 0.055) / 1.055) ^ (2.4 : ℝ) * 100.0

/-- `delinearized` from `utils/color.rs`: linear-light value to 8-bit
channel, with round and clamp (the final `as u8` saturates, which the
clamp to `[0, 255]` already guarantees). -/
noncomputable def delinearized (rgb_comp : ℝ) : Channel :=
  let normalized := rgb_comp / 100.0
  let d :=
    if normalized ≤ 0.0031308 then normalized * 12.92
    else 1.055 * normalized ^ ((1 : ℝ) / 2.4) - 0.055
  ⟨(min 255 (max 0 (rustRound (d * 255.0)))).toNat, by omega⟩

/-- `argb_from_linrgb` from `utils/color.rs`. -/
noncomputable def argb_from_linrgb (linrgb : Vec3) : ARGB :=
  argb_from_rgb ⟨delinearized linrgb.x, delinearized linrgb.y, delinearized linrgb.z⟩

/-- `argb_from_xyz` from `utils/color.rs`. -/
noncomputable def argb_from_xyz (xyz : Vec3) : ARGB :=
  let rgb := matrix_multiply xyz XYZ_TO_SRGB
  argb_from_rgb ⟨delinearized rgb.x, delinearized rgb.y, delinearized rgb.z⟩

/-- `xyz_from_argb` from `utils/color.rs`. -/
noncomputable def xyz_from_argb (argb : ARGB) : Vec3 :=
  matrix_multiply ⟨linearized argb.red, linearized argb.green, linearized argb.blue⟩
    SRGB_TO_XYZ

/-- `lab_f` from `utils/color.rs`. -/
noncomputable def lab_f (t : ℝ) : ℝ :=
  let e : ℝ := 216.0 / 24389.0
  let kappa : ℝ := 24389.0 / 27.0
  if t > e then t ^ ((1 : ℝ) / 3.0) else (kappa * t + 16.0) / 116.0

/-- `lab_invf` from `utils/color.rs`. -/
noncomputable def lab_invf (ft : ℝ) : ℝ :=
  let e : ℝ := 216.0 / 24389.0
  let kappa : ℝ := 24389.0 / 27.0
  let ft3 := ft * ft * ft
  if ft3 > e then ft3 else (116.0 * ft - 16.0) / kappa

/-- `y_from_lstar` from `utils/color.rs`. -/
noncomputable def y_from_lstar (lstar : ℝ) : ℝ :=
  100.0 * lab_invf ((lstar + 16.0) / 116.0)

/-- `argb_from_lstar` from `utils/color.rs`: gray with the given L*. -/
noncomputable def argb_from_lstar (lstar : ℝ) : ARGB :=
  let y := y_from_lstar lstar
  let w := delinearized y
  argb_from_rgb ⟨w, w, w⟩

/-- `lstar_from_argb` from `utils/color.rs`. -/
noncomputable def lstar_from_argb (argb : ARGB) : ℝ :=
  let y := (xyz_from_argb argb).y
  116.0 * lab_f (y / 100.0) - 16.0

/-- `argb_from_lab` from `utils/color.rs`. -/
noncomputable def argb_from_lab (l a b : ℝ) : ARGB :=
  let fy := (l + 16.0) / 116.0
  let fx := a / 500.0 + fy
  let fz := fy - b / 200.0
  let x := lab_invf fx * WHITE_POINT_D65.x
  let y := lab_invf fy * WHITE_POINT_D65.y
  let z := lab_invf fz * WHITE_POINT_D65.z
  argb_from_xyz ⟨x, y, z⟩

/-- The test constant `BLACK` (`[0xff, 0x00, 0x00, 0x00]`). -/
def BLACK : ARGB := ⟨255, 0, 0, 0⟩

/-- The test constant `WHITE` (`[0xff, 0xff, 0xff, 0xff]`). -/
def WHITE : ARGB := ⟨255, 255, 255, 255⟩

/-- Modelled from the spec: `hct/hct_solver.rs` is absent from the source
tree.  §4.4 describes the solver's search only at design level (a bisection
over trial chromas in the CAM16 a*/b* plane, each trial inverted per §4.3 to
a linear-RGB candidate); that search is abstracted here as a function from
the sanitized (hue, chroma, tone) request to the linear-RGB candidate the
search settles on.  Every result it can produce is packed to 8-bit through
the repository's real per-channel delinearization (`argb_from_linrgb`). -/
structure SolverSearch where
  search : ℝ → ℝ → ℝ → Vec3

/-- Modelled from the spec: `hct/hct_solver.rs` is absent from the source
tree.  Per §4.4, hue is wrapped into `[0, 360)` (the repository's
`sanitize_degrees_double`), tone is clamped into `[0, 100]`, the tone
extremes 0 and 100 resolve on the gray axis to pure black/white
(the repository's real `argb_from_lstar`), and otherwise the search's
candidate is packed via §4.3's per-channel delinearization
(the repository's real `argb_from_linrgb`). -/
noncomputable def solve_to_int (S : SolverSearch) (hue chroma tone : ℝ) : ARGB :=
  let hueS := sanitize_degrees_double hue
  let toneS := max 0 (min 100 tone)
  if toneS = 0 ∨ toneS = 100 then argb_from_lstar toneS
  else argb_from_linrgb (S.search hueS chroma toneS)

/-- Modelled from the spec: `hct/cam16.rs` is absent from the source tree.
The facade in `hct/mod.rs` reads back only the hue and chroma correlates of
`Cam16::from_argb`; those two correlates are abstracted as functions of the
color. -/
structure Cam16Model where
  hue : ARGB → ℝ
  chroma : ARGB → ℝ

/-- The six CAM16 appearance correlates read by the `cam_black` test:
lightness `j`, `chroma`, `hue`, colorfulness `m`, saturation `s`,
brightness `q`. -/
structure Cam16 where
  j : ℝ
  chroma : ℝ
  hue : ℝ
  m : ℝ
  s : ℝ
  q : ℝ

/-- Modelled from the spec: `hct/cam16.rs` is absent from the source tree.
§4.2's forward transform starts from the XYZ of the input, computed here by
the repository's real `xyz_from_argb`; its guarantee that degenerate
(zero-light) inputs yield all-zero correlates is the zero-XYZ branch, and
the non-degenerate correlate computation (adaptation, nonlinearity,
eccentricity — given only qualitatively in §4.2) is abstracted as `rest`. -/
noncomputable def Cam16.from_argb (rest : Vec3 → Cam16) (argb : ARGB) : Cam16 :=
  let xyz := xyz_from_argb argb
  if xyz.x = 0 ∧ xyz.y = 0 ∧ xyz.z = 0 then ⟨0, 0, 0, 0, 0, 0⟩ else rest xyz

/-- The `Hct` value type from `hct/mod.rs`: three appearance scalars plus
the cached ARGB. -/
structure Hct where
  internal_hue : ℝ
  internal_chroma : ℝ
  internal_tone : ℝ
  argb : ARGB

/-- `Hct::default()`: all fields zero. -/
def Hct.default : Hct := ⟨0, 0, 0, ⟨0, 0, 0, 0⟩⟩

/-- `Hct::set_internal_state` from `hct/mod.rs`: overwrites the cached ARGB
and re-derives all three scalars from it — hue and chroma through the CAM16
forward transform (abstracted as `M`), tone through the repository's real
`lstar_from_argb`. -/
noncomputable def Hct.set_internal_state (M : Cam16Model) (_self : Hct) (argb : ARGB) : Hct :=
  ⟨M.hue argb, M.chroma argb, lstar_from_argb argb, argb⟩

/-- `Hct::from` from `hct/mod.rs` (named `from_hct` because `from` is a
reserved word): solve, then set the internal state from the result. -/
noncomputable def Hct.from_hct (M : Cam16Model) (S : SolverSearch)
    (hue chroma tone : ℝ) : Hct :=
  Hct.set_internal_state M Hct.default (solve_to_int S hue chroma tone)

/-- `Hct::from_int` from `hct/mod.rs`. -/
noncomputable def Hct.from_int (M : Cam16Model) (argb : ARGB) : Hct :=
  Hct.set_internal_state M Hct.default argb

/-- `Hct::hue` getter. -/
def Hct.hue (self : Hct) : ℝ := self.internal_hue

/-- `Hct::chroma` getter. -/
def Hct.chroma (self : Hct) : ℝ := self.internal_chroma

/-- `Hct::tone` getter. -/
def Hct.tone (self : Hct) : ℝ := self.internal_tone

/-- `Hct::to_int` getter: the cached ARGB. -/
def Hct.to_int (self : Hct) : ARGB := self.argb

/-- `Hct::set_hue` from `hct/mod.rs`. -/
noncomputable def Hct.set_hue (M : Cam16Model) (S : SolverSearch)
    (self : Hct) (hue : ℝ) : Hct :=
  Hct.set_internal_state M self
    (solve_to_int S hue self.internal_chroma self.internal_tone)

/-- `Hct::set_chroma` from `hct/mod.rs`. -/
noncomputable def Hct.set_chroma (M : Cam16Model) (S : SolverSearch)
    (self : Hct) (chroma : ℝ) : Hct :=
  Hct.set_internal_state M self
    (solve_to_int S self.internal_hue chroma self.internal_tone)

/-- `Hct::set_tone` from `hct/mod.rs`. -/
noncomputable def Hct.set_tone (M : Cam16Model) (S : SolverSearch)
    (self : Hct) (tone : ℝ) : Hct :=
  Hct.set_internal_state M self
    (solve_to_int S self.internal_hue self.internal_chroma tone)

/-- The consistency invariant of `Hct` (§3, §9 of the spec): the three
stored scalars agree with what the CAM16 forward transform and
`lstar_from_argb` yield on the cached ARGB. -/
noncomputable def HctConsistent (M : Cam16Model) (h : Hct) : Prop :=
  h.internal_hue = M.hue h.argb ∧
  h.internal_chroma = M.chroma h.argb ∧
  h.internal_tone = lstar_from_argb h.argb

/-- The `Role` enum from `scheme/mod.rs`: the 29 named color roles. -/
inductive Role where
  | Primary | OnPrimary | PrimaryContainer | OnPrimaryContainer
  | Secondary | OnSecondary | SecondaryContainer | OnSecondaryContainer
  | Tertiary | OnTertiary | TertiaryContainer | OnTertiaryContainer
  | Error | OnError | ErrorContainer | OnErrorContainer
  | Background | OnBackground | Surface | OnSurface
  | SurfaceVariant | OnSurfaceVariant | Outline | OutlineVariant
  | Shadow | Scrim | InverseSurface | InverseOnSurface | InversePrimary
deriving DecidableEq

/-- The static `ROLES` array behind `Role::iterator()` in `scheme/mod.rs`. -/
def ROLES : List Role :=
  [.Primary, .OnPrimary, .PrimaryContainer, .OnPrimaryContainer, .Secondary,
   .OnSecondary, .SecondaryContainer, .OnSecondaryContainer, .Tertiary,
   .OnTertiary, .TertiaryContainer, .OnTertiaryContainer, .Error, .OnError,
   .ErrorContainer, .OnErrorContainer, .Background, .OnBackground,
   .Surface, .OnSurface, .SurfaceVariant, .OnSurfaceVariant, .Outline,
   .OutlineVariant, .Shadow, .Scrim, .InverseSurface, .InverseOnSurface,
   .InversePrimary]

/-- The `Scheme` struct from `scheme/mod.rs`: one value per role.  The
field type is a parameter so the same construction can be read either at
8-bit colors (`ARGB`, as in the source) or at the tone arguments it passes
to the palettes. -/
structure Scheme (α : Type) where
  primary : α
  on_primary : α
  primary_container : α
  on_primary_container : α
  secondary : α
  on_secondary : α
  secondary_container : α
  on_secondary_container : α
  tertiary : α
  on_tertiary : α
  tertiary_container : α
  on_tertiary_container : α
  error : α
  on_error : α
  error_container : α
  on_error_container : α
  background : α
  on_background : α
  surface : α
  on_surface : α
  surface_variant : α
  on_surface_variant : α
  outline : α
  outline_variant : α
  shadow : α
  scrim : α
  inverse_surface : α
  inverse_on_surface : α
  inverse_primary : α

/-- The `Index<&Role> for Scheme` impl from `scheme/mod.rs`. -/
def Scheme.index {α : Type} (s : Scheme α) (role : Role) : α :=
  match role with
  | .Primary => s.primary
  | .OnPrimary => s.on_primary
  | .PrimaryContainer => s.primary_container
  | .OnPrimaryContainer => s.on_primary_container
  | .Secondary => s.secondary
  | .OnSecondary => s.on_secondary
  | .SecondaryContainer => s.secondary_container
  | .OnSecondaryContainer => s.on_secondary_container
  | .Tertiary => s.tertiary
  | .OnTertiary => s.on_tertiary
  | .TertiaryContainer => s.tertiary_container
  | .OnTertiaryContainer => s.on_tertiary_container
  | .Error => s.error
  | .OnError => s.on_error
  | .ErrorContainer => s.error_container
  | .OnErrorContainer => s.on_error_container
  | .Background => s.background
  | .OnBackground => s.on_background
  | .Surface => s.surface
  | .OnSurface => s.on_surface
  | .SurfaceVariant => s.surface_variant
  | .OnSurfaceVariant => s.on_surface_variant
  | .Outline => s.outline
  | .OutlineVariant => s.outline_variant
  | .Shadow => s.shadow
  | .Scrim => s.scrim
  | .InverseSurface => s.inverse_surface
  | .InverseOnSurface => s.inverse_on_surface
  | .InversePrimary => s.inverse_primary

/-- Modelled from the spec: the `palettes` module is absent from the source
tree.  §6 reads a tonal palette only through its `tone(t)` lookup, so a
palette is abstracted as that lookup function. -/
structure TonalPalette (α : Type) where
  tone : Nat → α

/-- Modelled from the spec: the `palettes` module is absent from the source
tree.  A `CorePalette` is the six tonal palettes the scheme assembly in
`scheme/mod.rs` reads (`a1`, `a2`, `a3`, `error`, `n1`, `n2`). -/
structure CorePalette (α : Type) where
  a1 : TonalPalette α
  a2 : TonalPalette α
  a3 : TonalPalette α
  error : TonalPalette α
  n1 : TonalPalette α
  n2 : TonalPalette α

/-- `Scheme::light_from_core_palette` from `scheme/mod.rs`, with the exact
tone argument of every call. -/
def light_from_core_palette {α : Type} (core : CorePalette α) : Scheme α :=
  ⟨core.a1.tone 40, core.a1.tone 100, core.a1.tone 90, core.a1.tone 10,
   core.a2.tone 40, core.a2.tone 100, core.a2.tone 90, core.a2.tone 10,
   core.a3.tone 40, core.a3.tone 100, core.a3.tone 90, core.a3.tone 10,
   core.error.tone 40, core.error.tone 100, core.error.tone 90, core.error.tone 10,
   core.n1.tone 99, core.n1.tone 10, core.n1.tone 99, core.n1.tone 10,
   core.n2.tone 90, core.n2.tone 30, core.n2.tone 50, core.n2.tone 80,
   core.n1.tone 0, core.n1.tone 0, core.n1.tone 20, core.n1.tone 95,
   core.a1.tone 80⟩

/-- `Scheme::dark_from_core_palette` from `scheme/mod.rs`, with the exact
tone argument of every call. -/
def dark_from_core_palette {α : Type} (core : CorePalette α) : Scheme α :=
  ⟨core.a1.tone 80, core.a1.tone 20, core.a1.tone 30, core.a1.tone 90,
   core.a2.tone 80, core.a2.tone 20, core.a2.tone 30, core.a2.tone 90,
   core.a3.tone 80, core.a3.tone 20, core.a3.tone 30, core.a3.tone 90,
   core.error.tone 80, core.error.tone 20, core.error.tone 30, core.error.tone 90,
   core.n1.tone 10, core.n1.tone 90, core.n1.tone 10, core.n1.tone 90,
   core.n2.tone 30, core.n2.tone 80, core.n2.tone 60, core.n2.tone 30,
   core.n1.tone 0, core.n1.tone 0, core.n1.tone 90, core.n1.tone 20,
   core.a1.tone 40⟩

/-- A core palette whose every tonal palette returns the tone it was asked
for, so the assembled scheme records, per role, the tone argument the
assembly passed. -/
def capture_core : CorePalette Nat :=
  ⟨⟨fun t => t⟩, ⟨fun t => t⟩, ⟨fun t => t⟩, ⟨fun t => t⟩, ⟨fun t => t⟩, ⟨fun t => t⟩⟩

/-- The tone arguments `light_from_core_palette` passes, one per role. -/
def light_scheme_tones : List Nat :=
  ROLES.map (light_from_core_palette capture_core).index

/-- The tone arguments `dark_from_core_palette` passes, one per role. -/
def dark_scheme_tones : List Nat :=
  ROLES.map (dark_from_core_palette capture_core).index

/-! Helper lemmas about the real color conversions in `utils/color.rs`. -/

theorem rustRound_of_nonneg (x : ℝ) (h : 0 ≤ x) : rustRound x = ⌊x + 1 / 2⌋ := by
  simp only [rustRound, if_pos h]

theorem linearized_zero : linearized 0 = 0 := by
  have hv : ((0 : Channel).val : ℝ) = 0 := by norm_num
  simp only [linearized, hv]
  norm_num

theorem linearized_255 : linearized 255 = 100 := by
  have hv : ((255 : Channel).val : ℝ) = 255 := by
    have : (255 : Channel).val = 255 := rfl
    exact_mod_cast this
  simp only [linearized, hv]
  rw [if_neg (by norm_num)]
  rw [show ((255 : ℝ) / 255.0 + 0.055) / 1.055 = 1 by norm_num]
  rw [Real.one_rpow]
  norm_num

theorem delinearized_zero : delinearized 0 = 0 := by
  apply Fin.ext
  simp only [delinearized]
  rw [if_pos (by norm_num : (0 : ℝ) / 100.0 ≤ 0.0031308)]
  rw [show (0 : ℝ) / 100.0 * 12.92 * 255.0 = 0 by norm_num]
  rw [rustRound_of_nonneg 0 le_rfl]
  rw [show ⌊(0 : ℝ) + 1 / 2⌋ = 0 from by
    rw [Int.floor_eq_iff]
    constructor <;> norm_num]
  decide

theorem delinearized_hundred : delinearized 100 = 255 := by
  apply Fin.ext
  simp only [delinearized]
  rw [if_neg (by norm_num : ¬((100 : ℝ) / 100.0 ≤ 0.0031308))]
  rw [show (100 : ℝ) / 100.0 = 1 by norm_num]
  rw [Real.one_rpow]
  rw [show ((1.055 : ℝ) * 1 - 0.055) * 255.0 = 255 by norm_num]
  rw [rustRound_of_nonneg 255 (by norm_num)]
  rw [show ⌊(255 : ℝ) + 1 / 2⌋ = 255 from by
    rw [Int.floor_eq_iff]
    constructor <;> norm_num]
  decide

theorem y_from_lstar_zero : y_from_lstar 0 = 0 := by
  simp only [y_from_lstar, lab_invf]
  rw [if_neg (by norm_num)]
  norm_num

theorem y_from_lstar_hundred : y_from_lstar 100 = 100 := by
  simp only [y_from_lstar, lab_invf]
  rw [if_pos (by norm_num)]
  norm_num

theorem argb_from_lstar_zero : argb_from_lstar 0 = BLACK := by
  simp only [argb_from_lstar, y_from_lstar_zero, delinearized_zero, argb_from_rgb, BLACK]

theorem argb_from_lstar_hundred : argb_from_lstar 100 = WHITE := by
  simp only [argb_from_lstar, y_from_lstar_hundred, delinearized_hundred, argb_from_rgb, WHITE]

theorem xyz_from_argb_black : xyz_from_argb BLACK = ⟨0, 0, 0⟩ := by
  show matrix_multiply ⟨linearized 0, linearized 0, linearized 0⟩ SRGB_TO_XYZ = ⟨0, 0, 0⟩
  rw [linearized_zero]
  simp only [matrix_multiply, SRGB_TO_XYZ]
  norm_num

/-! Claim theorems. -/

/-- C3: for every requested hue and chroma (and any completion of the
solver's search), `Hct::from(hue, chroma, 0.0).to_int()` is opaque black
`[255, 0, 0, 0]` and `Hct::from(hue, chroma, 100.0).to_int()` is opaque
white `[255, 255, 255, 255]`. -/
theorem hct_tone_extremes_black_white (M : Cam16Model) (S : SolverSearch)
    (hue chroma : ℝ) :
    (Hct.from_hct M S hue chroma 0).to_int = BLACK ∧
    (Hct.from_hct M S hue chroma 100).to_int = WHITE := by
  constructor
  · show solve_to_int S hue chroma 0 = BLACK
    simp only [solve_to_int]
    rw [show max (0 : ℝ) (min 100 0) = 0 by norm_num]
    rw [if_pos (Or.inl rfl)]
    exact argb_from_lstar_zero
  · show solve_to_int S hue chroma 100 = WHITE
    simp only [solve_to_int]
    rw [show max (0 : ℝ) (min 100 100) = 100 by norm_num]
    rw [if_pos (Or.inr rfl)]
    exact argb_from_lstar_hundred

/-- C6: both constructors and all three mutators of `Hct` leave the value in
a state where the three stored scalars are exactly what the CAM16 forward
transform and `lstar_from_argb` yield on the cached ARGB — all four fields
are overwritten together through `set_internal_state`. -/
theorem hct_internal_state_consistent (M : Cam16Model) (S : SolverSearch)
    (hue chroma tone x : ℝ) (argb : ARGB) (h : Hct) :
    HctConsistent M (Hct.from_hct M S hue chroma tone) ∧
    HctConsistent M (Hct.from_int M argb) ∧
    HctConsistent M (Hct.set_hue M S h x) ∧
    HctConsistent M (Hct.set_chroma M S h x) ∧
    HctConsistent M (Hct.set_tone M S h x) :=
  ⟨⟨rfl, rfl, rfl⟩, ⟨rfl, rfl, rfl⟩, ⟨rfl, rfl, rfl⟩, ⟨rfl, rfl, rfl⟩, ⟨rfl, rfl, rfl⟩⟩

/-- C7 counterexample: the light scheme passes tone 99 (for the
`Background` role, among others), and 99 is not a multiple of ten — so not
every tone argument the scheme assembly passes is one of the stops
0, 10, 20, …, 100. -/
theorem light_scheme_passes_tone_99 :
    99 ∈ light_scheme_tones ∧ ¬(99 % 10 = 0) := by decide

/-- C7 amended: every tone argument `Scheme::dark_from_core_palette` passes
to a tonal palette is a multiple of ten; `Scheme::light_from_core_palette`
also only passes multiples of ten except for tone 99 (background, surface)
and tone 95 (inverse_on_surface). -/
theorem scheme_tone_stops :
    (light_scheme_tones.all fun t => t % 10 == 0 || t == 95 || t == 99) = true ∧
    (dark_scheme_tones.all fun t => t % 10 == 0) = true := by decide

/-- C8: the CAM16 forward transform of pure black `[255, 0, 0, 0]` yields
all-zero appearance correlates (J = C = h = M = s = Q = 0), for any
completion of the non-degenerate branch: black's XYZ is exactly zero. -/
theorem cam16_black_all_zero (rest : Vec3 → Cam16) :
    (Cam16.from_argb rest BLACK).j = 0 ∧
    (Cam16.from_argb rest BLACK).chroma = 0 ∧
    (Cam16.from_argb rest BLACK).hue = 0 ∧
    (Cam16.from_argb rest BLACK).m = 0 ∧
    (Cam16.from_argb rest BLACK).s = 0 ∧
    (Cam16.from_argb rest BLACK).q = 0 := by
  have h : Cam16.from_argb rest BLACK = ⟨0, 0, 0, 0, 0, 0⟩ := by
    simp only [Cam16.from_argb, xyz_from_argb_black]
    simp
  rw [h]
  exact ⟨rfl, rfl, rfl, rfl, rfl, rfl⟩

/-- C9: for every 8-bit channel value, `linearized` lands in `[0, 100]`;
in particular `linearized(0) = 0` and `linearized(255) = 100`. -/
theorem linearized_in_range (c : Channel) :
    (0 ≤ linearized c ∧ linearized c ≤ 100) ∧
    linearized 0 = 0 ∧ linearized 255 = 100 := by
  refine ⟨?_, linearized_zero, linearized_255⟩
  have hc0 : (0 : ℝ) ≤ (c.val : ℝ) := by positivity
  have hc1 : (c.val : ℝ) ≤ 255 := by
    have h := c.isLt
    have h2 : c.val ≤ 255 := by omega
    exact_mod_cast h2
  have hn0 : (0 : ℝ) ≤ (c.val : ℝ) / 255.0 := by positivity
  have hn1 : (c.val : ℝ) / 255.0 ≤ 1 := by
    rw [div_le_one (by norm_num)]
    linarith
  simp only [linearized]
  split_ifs with h
  · constructor
    · positivity
    · calc (c.val : ℝ) / 255.0 / 12.92 * 100.0
          = (c.val : ℝ) / 255.0 * (100.0 / 12.92) := by ring
        _ ≤ 1 * (100.0 / 12.92) := mul_le_mul_of_nonneg_right hn1 (by positivity)
        _ ≤ 100 := by norm_num
  · have hb0 : (0 : ℝ) ≤ ((c.val : ℝ) / 255.0 + 0.055) / 1.055 := by positivity
    have hb1 : ((c.val : ℝ) / 255.0 + 0.055) / 1.055 ≤ 1 := by
      rw [div_le_one (by norm_num)]
      linarith
    have hr0 : (0 : ℝ) ≤ (((c.val : ℝ) / 255.0 + 0.055) / 1.055) ^ (2.4 : ℝ) :=
      Real.rpow_nonneg hb0 _
    have hr1 : (((c.val : ℝ) / 255.0 + 0.055) / 1.055) ^ (2.4 : ℝ) ≤ 1 :=
      Real.rpow_le_one hb0 hb1 (by norm_num)
    constructor
    · exact mul_nonneg hr0 (by norm_num)
    · calc (((c.val : ℝ) / 255.0 + 0.055) / 1.055) ^ (2.4 : ℝ) * 100.0
          ≤ 1 * 100.0 := mul_le_mul_of_nonneg_right hr1 (by norm_num)
        _ = 100 := by norm_num

/-- C10: every ARGB the construction pipeline emits is fully opaque — the
outputs of `argb_from_rgb`, `argb_from_linrgb`, `argb_from_xyz`,
`argb_from_lstar` and `argb_from_lab`, and hence `Hct::from(...).to_int()`
on either solver path, all carry alpha 255. -/
theorem pipeline_alpha_always_255 (rgb : RGB) (lin xyz : Vec3)
    (lstar l a b : ℝ) (M : Cam16Model) (S : SolverSearch)
    (hue chroma tone : ℝ) :
    alpha_from_argb (argb_from_rgb rgb) = 255 ∧
    alpha_from_argb (argb_from_linrgb lin) = 255 ∧
    alpha_from_argb (argb_from_xyz xyz) = 255 ∧
    alpha_from_argb (argb_from_lstar lstar) = 255 ∧
    alpha_from_argb (argb_from_lab l a b) = 255 ∧
    alpha_from_argb (Hct.from_hct M S hue chroma tone).to_int = 255 := by
  refine ⟨rfl, rfl, rfl, rfl, rfl, ?_⟩
  show alpha_from_argb (solve_to_int S hue chroma tone) = 255
  simp only [solve_to_int]
  split <;> rfl

end MaterialColor
